import Mathlib

/-!
# Shallow embedding of the drupal-gulp configuration model

This file embeds the configuration layer of the `drupal-gulp` repository
(its entry-point module: `detectDrupalRoot`, `DrupalExtension`, `Config`,
`ConfigBuilder`) and proves the specification claims about it.

Modelling choices:
* `node:path`'s `join` is modelled as separator-joining of the non-empty
  segments (returning "." when all segments are empty), without the
  `..`/`.` normalisation step, which none of the embedded call sites rely
  on.  `path.resolve` is modelled as an abstract component of the
  filesystem environment.
* The filesystem (`fs.existsSync`, `fs.lstatSync(p).isDirectory()`,
  `path.resolve`) is an abstract environment `FileSystem`.
* JavaScript object/array reference semantics matter for the builder
  (`build()` copies references, `concat` allocates a fresh array, and
  property assignment mutates the object in place), so the six pattern
  arrays and the options object live in an explicit `Heap`; builder and
  snapshot fields hold cell indices, exactly as JS variables hold
  references.
* Option values are modelled by an inductive `JSValue` tree; a plain
  object's property lookup with the `in` operator also sees the
  properties inherited from `Object.prototype`, which the embedding
  represents by a fixed list of prototype method names.
* JS exceptions (`throw`) are modelled with `Except String`.
-/

namespace DrupalGulp

/-- A JavaScript value, as far as the option bag needs: `null`,
`undefined`, booleans, numbers, strings, arrays, plain objects (as
ordered field lists) and (opaque, named) functions such as the methods
inherited from `Object.prototype`. -/
inductive JSValue where
  | vNull
  | vUndefined
  | vBool (b : Bool)
  | vNum (n : Int)
  | vStr (s : String)
  | vArr (elems : List JSValue)
  | vObj (fields : List (String × JSValue))
  | vFun (name : String)

open JSValue

/-- The own-property names of `Object.prototype` (data and method
properties visible to the `in` operator on a plain object literal). -/
def objectProtoKeys : List String :=
  ["constructor", "hasOwnProperty", "isPrototypeOf",
   "propertyIsEnumerable", "toLocaleString", "toString", "valueOf"]

/-- Value of an `Object.prototype` property: each is a built-in function
except `constructor`, which is the `Object` constructor function. -/
def objectProtoValue (key : String) : JSValue :=
  if key = "constructor" then vFun "Object" else vFun key

/-- The JavaScript `in` operator on a plain object: true for own
properties and for properties inherited from `Object.prototype`. -/
def jsIn (key : String) (own : List (String × JSValue)) : Bool :=
  own.any (fun kv => kv.1 = key) || objectProtoKeys.contains key

/-- JavaScript property read `obj[key]` on a plain object: own property
first, then the prototype chain, else `undefined`. -/
def jsGetProp (key : String) (own : List (String × JSValue)) : JSValue :=
  match own.find? (fun kv => kv.1 = key) with
  | some kv => kv.2
  | none =>
      if objectProtoKeys.contains key then objectProtoValue key
      else vUndefined

/-- JavaScript property write `obj[key] = v` on a plain object: update
the existing own property in place (own-property keys of a JS object are
unique, so updating the first match is exact), otherwise append a new
own property in insertion order. -/
def jsSetProp (key : String) (v : JSValue) :
    List (String × JSValue) → List (String × JSValue)
  | [] => [(key, v)]
  | kv :: rest =>
      if kv.1 = key then (kv.1, v) :: rest
      else kv :: jsSetProp key v rest

/-- Model of `node:path`'s `join`: drop empty segments, join the rest with `/`;
"." when everything was empty.  (The source's call sites never need the
`..`/`.` normalisation that Node additionally performs.) -/
def joinParts : List String → String
  | [] => ""
  | [s] => s
  | s :: rest => s ++ "/" ++ joinParts rest

def pathJoin (segments : List String) : String :=
  match segments.filter (fun s => s ≠ "") with
  | [] => "."
  | parts => joinParts parts

/-- Truthiness of a `null | string` JS variable: `null` and the empty
string are falsy. -/
def jsTruthyStr : Option String → Bool
  | none => false
  | some s => s ≠ ""

/-- The filesystem environment: `fs.existsSync`, the `isDirectory()`
flag of `fs.lstatSync` (meaningful only on existing paths; the source
only consults it behind an `existsSync` guard or lets `lstatSync` throw),
and `path.resolve`. -/
structure FileSystem where
  existsSync : String → Bool
  lstatIsDirectory : String → Bool
  resolve : String → String

/-- Node's `path.resolve` always returns a non-empty (absolute) path. -/
def FileSystem.resolveNonempty (fs : FileSystem) : Prop :=
  ∀ s, fs.resolve s ≠ ""

/-- The candidate web-root directory names, in probe order. -/
def drupalRootEntries : List String := ["web", "docroot"]

/-- The `for (const entry of entries)` loop body of `detectDrupalRoot`:
return the first resolved candidate that exists and is a directory.  The
fall-through `throw` formats the full candidate list
(`entries.join(', ')`), independent of how far the loop got. -/
def detectDrupalRootLoop (fs : FileSystem) (projectRoot : String) :
    List String → Except String String
  | [] => .error ("Drupal root not detected at: " ++
      String.intercalate ", " drupalRootEntries ++ ".")
  | entry :: rest =>
      let candidate := fs.resolve (pathJoin [projectRoot, entry])
      if fs.existsSync candidate && fs.lstatIsDirectory candidate then
        .ok candidate
      else
        detectDrupalRootLoop fs projectRoot rest

/-- Embedding of `detectDrupalRoot(projectRoot)`: try `web` then `docroot`; return
the first resolved candidate that exists and is a directory, else throw. -/
def detectDrupalRoot (fs : FileSystem) (projectRoot : String) :
    Except String String :=
  detectDrupalRootLoop fs projectRoot drupalRootEntries

/-- A Drupal extension descriptor: holds the extension's path. -/
structure DrupalExtension where
  path : String
deriving DecidableEq, Repr

/-- The `DrupalExtension` constructor.  The source guard is
`!fs.existsSync(path) && !fs.lstatSync(path).isDirectory()`: when the
path exists the conjunction short-circuits to false and construction
succeeds whether or not the path is a directory; when the path does not
exist, `fs.lstatSync(path)` itself throws `ENOENT` before `isDirectory`
is consulted, so the hand-written error message is unreachable. -/
def DrupalExtension.construct (fs : FileSystem) (p : String) :
    Except String DrupalExtension :=
  if fs.existsSync p then
    .ok ⟨p⟩
  else
    .error ("ENOENT: no such file or directory, lstat " ++ p)

def DrupalExtension.getStyleSourcePatterns (e : DrupalExtension) :
    List String :=
  [pathJoin [e.path, "**", "*.scss"]]

def DrupalExtension.getScriptSources (e : DrupalExtension) : List String :=
  [pathJoin [e.path, "**", "*.js"]]

def DrupalExtension.getStyleDestinationPatterns (e : DrupalExtension) :
    List String :=
  [pathJoin [e.path, "dist", "*.min.css"],
   pathJoin [e.path, "dist", "*.css.map"],
   pathJoin [e.path, "components", "**", "*.min.css"],
   pathJoin [e.path, "components", "**", "*.css.map"]]

def DrupalExtension.getScriptDestinations (e : DrupalExtension) :
    List String :=
  [pathJoin [e.path, "dist", "*.min.js"],
   pathJoin [e.path, "dist", "*.js.map"],
   pathJoin [e.path, "components", "**", "*.min.js"],
   pathJoin [e.path, "components", "**", "*.js.map"]]

/-- The JS heap, restricted to the cells the configuration model
allocates: string-array cells (the six pattern lists) and plain-object
cells (the options bag).  A cell reference is its index; allocation
appends. -/
structure Heap where
  arrCells : List (List String)
  objCells : List (List (String × JSValue))

def Heap.empty : Heap := ⟨[], []⟩

def Heap.derefArr (h : Heap) (r : Nat) : List String :=
  h.arrCells.getD r []

def Heap.derefObj (h : Heap) (r : Nat) : List (String × JSValue) :=
  h.objCells.getD r []

/-- Allocate a fresh array cell; returns its reference. -/
def Heap.allocArr (h : Heap) (xs : List String) : Heap × Nat :=
  ({ h with arrCells := h.arrCells ++ [xs] }, h.arrCells.length)

/-- Allocate a fresh plain-object cell; returns its reference. -/
def Heap.allocObj (h : Heap) (fields : List (String × JSValue)) :
    Heap × Nat :=
  ({ h with objCells := h.objCells ++ [fields] }, h.objCells.length)

/-- Overwrite an object cell in place (JS property assignment mutates
the referenced object, all aliases observe the change). -/
def Heap.writeObj (h : Heap) (r : Nat)
    (fields : List (String × JSValue)) : Heap :=
  { h with objCells := h.objCells.set r fields }

/-- The mutable configuration builder: the project root, the
`null | string` web-root slot, references into the heap for the six
pattern arrays and the options object. -/
structure ConfigBuilder where
  projectRoot : String
  _drupalRoot : Option String
  styleSources : Nat
  styleDestinations : Nat
  styleIgnores : Nat
  scriptSources : Nat
  scriptDestinations : Nat
  scriptIgnores : Nat
  options : Nat
deriving DecidableEq, Repr

/-- Embedding of `new ConfigBuilder(projectRoot)`: allocates six empty arrays and an
empty options object. -/
def ConfigBuilder.construct (h : Heap) (projectRoot : String) :
    Heap × ConfigBuilder :=
  let (h, rStyleSources) := h.allocArr []
  let (h, rStyleDestinations) := h.allocArr []
  let (h, rStyleIgnores) := h.allocArr []
  let (h, rScriptSources) := h.allocArr []
  let (h, rScriptDestinations) := h.allocArr []
  let (h, rScriptIgnores) := h.allocArr []
  let (h, rOptions) := h.allocObj []
  (h, { projectRoot := projectRoot
        _drupalRoot := none
        styleSources := rStyleSources
        styleDestinations := rStyleDestinations
        styleIgnores := rStyleIgnores
        scriptSources := rScriptSources
        scriptDestinations := rScriptDestinations
        scriptIgnores := rScriptIgnores
        options := rOptions })

/-- The `drupalRoot` getter: lazily detect and memoize the web root. -/
def ConfigBuilder.getDrupalRoot (fs : FileSystem) (b : ConfigBuilder) :
    Except String (String × ConfigBuilder) :=
  if jsTruthyStr b._drupalRoot then
    .ok (b._drupalRoot.getD "", b)
  else
    match detectDrupalRoot fs b.projectRoot with
    | .ok r => .ok (r, { b with _drupalRoot := some r })
    | .error e => .error e

/-- Embedding of `setDrupalDirectory(name)`: reject when the root slot is already
truthy, else store `path.join(projectRoot, name)` with no filesystem
check. -/
def ConfigBuilder.setDrupalDirectory (b : ConfigBuilder) (name : String) :
    Except String ConfigBuilder :=
  if jsTruthyStr b._drupalRoot then
    .error ("Drupal root already defined: " ++ b._drupalRoot.getD "")
  else
    .ok { b with _drupalRoot := some (pathJoin [b.projectRoot, name]) }

/-- Embedding of `this.styleSources = this.styleSources.concat(patterns)`: `concat`
allocates a fresh array and the builder field is rebound to it; the old
cell is left untouched. -/
def ConfigBuilder.addStyleSources (h : Heap) (b : ConfigBuilder)
    (patterns : List String) : Heap × ConfigBuilder :=
  let (h, r) := h.allocArr (h.derefArr b.styleSources ++ patterns)
  (h, { b with styleSources := r })

def ConfigBuilder.addStyleDestinations (h : Heap) (b : ConfigBuilder)
    (patterns : List String) : Heap × ConfigBuilder :=
  let (h, r) := h.allocArr (h.derefArr b.styleDestinations ++ patterns)
  (h, { b with styleDestinations := r })

def ConfigBuilder.addStyleIgnores (h : Heap) (b : ConfigBuilder)
    (patterns : List String) : Heap × ConfigBuilder :=
  let (h, r) := h.allocArr (h.derefArr b.styleIgnores ++ patterns)
  (h, { b with styleIgnores := r })

def ConfigBuilder.addScriptSources (h : Heap) (b : ConfigBuilder)
    (patterns : List String) : Heap × ConfigBuilder :=
  let (h, r) := h.allocArr (h.derefArr b.scriptSources ++ patterns)
  (h, { b with scriptSources := r })

def ConfigBuilder.addScriptDestinations (h : Heap) (b : ConfigBuilder)
    (patterns : List String) : Heap × ConfigBuilder :=
  let (h, r) := h.allocArr (h.derefArr b.scriptDestinations ++ patterns)
  (h, { b with scriptDestinations := r })

def ConfigBuilder.addScriptIgnores (h : Heap) (b : ConfigBuilder)
    (patterns : List String) : Heap × ConfigBuilder :=
  let (h, r) := h.allocArr (h.derefArr b.scriptIgnores ++ patterns)
  (h, { b with scriptIgnores := r })

/-- Embedding of `getOptionsFor(key, fallback)`: presence via the `in` operator. -/
def ConfigBuilder.getOptionsFor (h : Heap) (b : ConfigBuilder)
    (key : String) (fallback : JSValue := vNull) : JSValue :=
  let own := h.derefObj b.options
  if jsIn key own then jsGetProp key own else fallback

/-- Embedding of `setOptionsFor(key, opts)`: `this.options[key] = opts` mutates the
options object in place. -/
def ConfigBuilder.setOptionsFor (h : Heap) (b : ConfigBuilder)
    (key : String) (opts : JSValue) : Heap × ConfigBuilder :=
  (h.writeObj b.options (jsSetProp key opts (h.derefObj b.options)), b)

/-- The default ignore patterns for styles. -/
def defaultStyleIgnores : List String :=
  ["**/node_modules/**", "**/vendor/**", "**/*.min.css"]

/-- The default ignore patterns for scripts. -/
def defaultScriptIgnores : List String :=
  ["**/node_modules/**", "**/vendor/**", "**/*.min.js"]

/-- The default `globals` option value. -/
def defaultGlobals : JSValue :=
  vArr [vStr "$", vStr "Drupal", vStr "drupalSettings",
        vStr "jQuery", vStr "once"]

/-- Embedding of `applyDefaults()`: the fluent chain evaluates left to right, so the
`uglify` argument reads `this.options['globals']` after the `globals`
entry has been (re)written. -/
def ConfigBuilder.applyDefaults (h : Heap) (b : ConfigBuilder) :
    Heap × ConfigBuilder :=
  let (h, b) := b.addStyleIgnores h defaultStyleIgnores
  let (h, b) := b.addScriptIgnores h defaultScriptIgnores
  let (h, b) := b.setOptionsFor h "globals" defaultGlobals
  let reserved := jsGetProp "globals" (h.derefObj b.options)
  b.setOptionsFor h "uglify"
    (vObj [("mangle", vObj [("reserved", reserved)]),
           ("output", vObj [("comments", vStr "some")])])

/-- The configuration snapshot produced by `build()`.  Its pattern-list
fields and its options field hold the same heap references the builder
held at finalize time (`new Config({... styleSources: this.styleSources,
..., options: this.options})` copies references, not cells). -/
structure Config where
  projectRoot : String
  drupalRoot : String
  styleSources : Nat
  styleDestinations : Nat
  styleIgnores : Nat
  scriptSources : Nat
  scriptDestinations : Nat
  scriptIgnores : Nat
  options : Nat
deriving DecidableEq, Repr

/-- Embedding of `Config.optionsFor(key, fallback)`: same presence-over-truthiness
lookup as the builder's getter, on the snapshot's options reference. -/
def Config.optionsFor (h : Heap) (c : Config) (key : String)
    (fallback : JSValue := vNull) : JSValue :=
  let own := h.derefObj c.options
  if jsIn key own then jsGetProp key own else fallback

/-- Embedding of `build()`: resolve the web root through the lazy getter (which may
throw and memoizes into the builder), then assemble the snapshot from
the current field values. -/
def ConfigBuilder.build (fs : FileSystem) (h : Heap) (b : ConfigBuilder) :
    Except String (ConfigBuilder × Config) :=
  match b.getDrupalRoot fs with
  | .error e => .error e
  | .ok (root, b) =>
      .ok (b, { projectRoot := b.projectRoot
                drupalRoot := root
                styleSources := b.styleSources
                styleDestinations := b.styleDestinations
                styleIgnores := b.styleIgnores
                scriptSources := b.scriptSources
                scriptDestinations := b.scriptDestinations
                scriptIgnores := b.scriptIgnores
                options := b.options })

/-- All six pattern lists of a snapshot, dereferenced in a given heap. -/
def Config.patternLists (h : Heap) (c : Config) :
    List (List String) :=
  [h.derefArr c.styleSources, h.derefArr c.styleDestinations,
   h.derefArr c.styleIgnores, h.derefArr c.scriptSources,
   h.derefArr c.scriptDestinations, h.derefArr c.scriptIgnores]

/-- Well-formedness of a builder w.r.t. a heap: every reference it
holds denotes an allocated cell (always true of states reachable from
`ConfigBuilder.construct`, as JS references are never dangling). -/
def ConfigBuilder.wf (h : Heap) (b : ConfigBuilder) : Prop :=
  b.styleSources < h.arrCells.length ∧
  b.styleDestinations < h.arrCells.length ∧
  b.styleIgnores < h.arrCells.length ∧
  b.scriptSources < h.arrCells.length ∧
  b.scriptDestinations < h.arrCells.length ∧
  b.scriptIgnores < h.arrCells.length ∧
  b.options < h.objCells.length

instance (h : Heap) (b : ConfigBuilder) : Decidable (b.wf h) := by
  unfold ConfigBuilder.wf; infer_instance

/-! ## Heap lemmas -/

theorem List.getD_append_add {α : Type _} (l l' : List α) (d : α) (i : Nat) :
    (l ++ l').getD (l.length + i) d = l'.getD i d := by
  rw [List.getD_append_right _ _ _ _ (Nat.le_add_right _ _)]
  simp

theorem Heap.derefArr_allocArr_lt (h : Heap) (xs : List String) (r : Nat)
    (hr : r < h.arrCells.length) :
    (h.allocArr xs).1.derefArr r = h.derefArr r := by
  simp only [Heap.allocArr, Heap.derefArr]
  exact List.getD_append _ _ _ _ hr

theorem Heap.derefArr_allocArr_self (h : Heap) (xs : List String) :
    (h.allocArr xs).1.derefArr (h.allocArr xs).2 = xs := by
  simp only [Heap.allocArr, Heap.derefArr]
  rw [List.getD_append_right _ _ _ _ (le_refl _)]
  simp

theorem Heap.derefObj_allocArr (h : Heap) (xs : List String) (r : Nat) :
    (h.allocArr xs).1.derefObj r = h.derefObj r := rfl

theorem Heap.derefArr_writeObj (h : Heap) (r' : Nat)
    (fields : List (String × JSValue)) (r : Nat) :
    (h.writeObj r' fields).derefArr r = h.derefArr r := rfl

theorem Heap.derefObj_writeObj_self (h : Heap) (r : Nat)
    (fields : List (String × JSValue)) (hr : r < h.objCells.length) :
    (h.writeObj r fields).derefObj r = fields := by
  simp only [Heap.writeObj, Heap.derefObj]
  rw [List.getD_eq_getElem _ _ (by simpa using hr)]
  simp [hr]

theorem Heap.arrCells_writeObj (h : Heap) (r : Nat)
    (fields : List (String × JSValue)) :
    (h.writeObj r fields).arrCells = h.arrCells := rfl

theorem Heap.objCells_length_writeObj (h : Heap) (r : Nat)
    (fields : List (String × JSValue)) :
    (h.writeObj r fields).objCells.length = h.objCells.length := by
  simp [Heap.writeObj]

theorem Heap.objCells_allocArr (h : Heap) (xs : List String) :
    (h.allocArr xs).1.objCells = h.objCells := rfl

/-! ## Plain-object operation lemmas -/

theorem jsIn_jsSetProp_self (key : String) (v : JSValue)
    (own : List (String × JSValue)) :
    jsIn key (jsSetProp key v own) = true := by
  induction own with
  | nil => simp [jsIn, jsSetProp]
  | cons kv rest ih =>
      by_cases hkv : kv.1 = key
      · simp [jsIn, jsSetProp, hkv]
      · simp only [jsSetProp, if_neg hkv, jsIn, List.any_cons,
          Bool.or_eq_true] at ih ⊢
        rcases ih with hfound | hproto
        · exact Or.inl (Or.inr hfound)
        · exact Or.inr hproto

theorem jsGetProp_jsSetProp_self (key : String) (v : JSValue)
    (own : List (String × JSValue)) :
    jsGetProp key (jsSetProp key v own) = v := by
  induction own with
  | nil => simp [jsGetProp, jsSetProp]
  | cons kv rest ih =>
      by_cases hkv : kv.1 = key
      · simp [jsGetProp, jsSetProp, hkv]
      · simp only [jsSetProp, if_neg hkv, jsGetProp, List.find?_cons,
          decide_eq_false hkv] at ih ⊢
        exact ih

theorem jsGetProp_jsSetProp_ne (key key' : String) (v : JSValue)
    (own : List (String × JSValue)) (hne : key' ≠ key) :
    jsGetProp key' (jsSetProp key v own) = jsGetProp key' own := by
  have hd : ¬ (key = key') := fun h => hne h.symm
  induction own with
  | nil => simp [jsGetProp, jsSetProp, List.find?_cons, decide_eq_false hd]
  | cons kv rest ih =>
      by_cases hkv : kv.1 = key
      · have hkv' : ¬ kv.1 = key' := fun h => hne (h.symm.trans hkv)
        simp [jsGetProp, jsSetProp, if_pos hkv, List.find?_cons,
          decide_eq_false hkv']
      · by_cases hkv' : kv.1 = key'
        · simp only [jsSetProp, if_neg hkv]
          simp [jsGetProp, List.find?_cons, decide_eq_true hkv']
        · simp only [jsSetProp, if_neg hkv, jsGetProp, List.find?_cons,
            decide_eq_false hkv'] at ih ⊢
          exact ih

theorem jsIn_jsSetProp_of_jsIn (key key' : String) (v : JSValue)
    (own : List (String × JSValue)) (hin : jsIn key' own = true) :
    jsIn key' (jsSetProp key v own) = true := by
  induction own with
  | nil =>
      simp only [jsIn, List.any_nil, Bool.false_or] at hin
      simp only [jsIn, jsSetProp, Bool.or_eq_true]
      right
      exact hin
  | cons kv rest ih =>
      by_cases hkv : kv.1 = key
      · simp only [jsIn, List.any_cons, Bool.or_eq_true] at hin ⊢
        simpa [jsSetProp, hkv] using hin
      · simp only [jsIn, List.any_cons, Bool.or_eq_true] at hin ih ⊢
        simp only [jsSetProp, if_neg hkv, List.any_cons, Bool.or_eq_true]
        rcases hin with (hfst | hrest) | hproto
        · exact Or.inl (Or.inl hfst)
        · rcases ih (Or.inl hrest) with hf | hp
          · exact Or.inl (Or.inr hf)
          · exact Or.inr hp
        · exact Or.inr hproto

/-! ## Builder construction and operation effects -/

theorem construct_snd (h : Heap) (root : String) :
    (ConfigBuilder.construct h root).2 =
      { projectRoot := root
        _drupalRoot := none
        styleSources := h.arrCells.length
        styleDestinations := h.arrCells.length + 1
        styleIgnores := h.arrCells.length + 2
        scriptSources := h.arrCells.length + 3
        scriptDestinations := h.arrCells.length + 4
        scriptIgnores := h.arrCells.length + 5
        options := h.objCells.length } := by
  simp [ConfigBuilder.construct, Heap.allocArr, Heap.allocObj]

theorem construct_fst (h : Heap) (root : String) :
    (ConfigBuilder.construct h root).1 =
      { arrCells := h.arrCells ++ [[], [], [], [], [], []]
        objCells := h.objCells ++ [[]] } := by
  simp [ConfigBuilder.construct, Heap.allocArr, Heap.allocObj]

theorem construct_wf (h : Heap) (root : String) :
    ((ConfigBuilder.construct h root).2).wf
      (ConfigBuilder.construct h root).1 := by
  simp only [ConfigBuilder.wf, construct_fst, construct_snd,
    List.length_append]
  refine ⟨?_, ?_, ?_, ?_, ?_, ?_, ?_⟩ <;> simp

theorem construct_derefArr_styleSources (h : Heap) (root : String) :
    (ConfigBuilder.construct h root).1.derefArr
      (ConfigBuilder.construct h root).2.styleSources = [] := by
  simp only [construct_fst, construct_snd, Heap.derefArr]
  rw [List.getD_append_right _ _ _ _ (le_refl _)]
  simp

theorem construct_derefObj_options (h : Heap) (root : String) :
    (ConfigBuilder.construct h root).1.derefObj
      (ConfigBuilder.construct h root).2.options = [] := by
  simp only [construct_fst, construct_snd, Heap.derefObj]
  rw [List.getD_append_right _ _ _ _ (le_refl _)]
  simp

theorem addStyleSources_effect (h : Heap) (b : ConfigBuilder)
    (ps : List String) :
    (b.addStyleSources h ps).1.derefArr
      (b.addStyleSources h ps).2.styleSources =
      h.derefArr b.styleSources ++ ps := by
  simp only [ConfigBuilder.addStyleSources, Heap.allocArr, Heap.derefArr]
  rw [List.getD_append_right _ _ _ _ (le_refl _)]
  simp

theorem addStyleIgnores_effect (h : Heap) (b : ConfigBuilder)
    (ps : List String) :
    (b.addStyleIgnores h ps).1.derefArr
      (b.addStyleIgnores h ps).2.styleIgnores =
      h.derefArr b.styleIgnores ++ ps := by
  simp only [ConfigBuilder.addStyleIgnores, Heap.allocArr, Heap.derefArr]
  rw [List.getD_append_right _ _ _ _ (le_refl _)]
  simp

theorem addScriptIgnores_effect (h : Heap) (b : ConfigBuilder)
    (ps : List String) :
    (b.addScriptIgnores h ps).1.derefArr
      (b.addScriptIgnores h ps).2.scriptIgnores =
      h.derefArr b.scriptIgnores ++ ps := by
  simp only [ConfigBuilder.addScriptIgnores, Heap.allocArr, Heap.derefArr]
  rw [List.getD_append_right _ _ _ _ (le_refl _)]
  simp

/-- The lazy `drupalRoot` getter never changes any heap reference of the
builder, only the memoized root slot. -/
theorem getDrupalRoot_ok_refs (fs : FileSystem) (b b' : ConfigBuilder)
    (r : String) (hok : b.getDrupalRoot fs = .ok (r, b')) :
    b'.projectRoot = b.projectRoot ∧
    b'.styleSources = b.styleSources ∧
    b'.styleDestinations = b.styleDestinations ∧
    b'.styleIgnores = b.styleIgnores ∧
    b'.scriptSources = b.scriptSources ∧
    b'.scriptDestinations = b.scriptDestinations ∧
    b'.scriptIgnores = b.scriptIgnores ∧
    b'.options = b.options := by
  unfold ConfigBuilder.getDrupalRoot at hok
  split at hok
  · injection hok with hok
    injection hok with h1 h2
    subst h2
    exact ⟨rfl, rfl, rfl, rfl, rfl, rfl, rfl, rfl⟩
  · cases hd : detectDrupalRoot fs b.projectRoot with
    | ok root =>
        rw [hd] at hok
        injection hok with hok
        injection hok with h1 h2
        subst h2
        exact ⟨rfl, rfl, rfl, rfl, rfl, rfl, rfl, rfl⟩
    | error e => rw [hd] at hok; cases hok

/-- Lemma: `build()` copies the builder's references into the snapshot and
returns the builder with only the memoized root slot possibly updated. -/
theorem build_ok_refs (fs : FileSystem) (h : Heap) (b b' : ConfigBuilder)
    (cfg : Config) (hok : b.build fs h = .ok (b', cfg)) :
    cfg.styleSources = b.styleSources ∧
    cfg.styleDestinations = b.styleDestinations ∧
    cfg.styleIgnores = b.styleIgnores ∧
    cfg.scriptSources = b.scriptSources ∧
    cfg.scriptDestinations = b.scriptDestinations ∧
    cfg.scriptIgnores = b.scriptIgnores ∧
    cfg.options = b.options ∧
    b'.styleSources = b.styleSources ∧
    b'.styleDestinations = b.styleDestinations ∧
    b'.styleIgnores = b.styleIgnores ∧
    b'.scriptSources = b.scriptSources ∧
    b'.scriptDestinations = b.scriptDestinations ∧
    b'.scriptIgnores = b.scriptIgnores ∧
    b'.options = b.options := by
  unfold ConfigBuilder.build at hok
  cases hg : b.getDrupalRoot fs with
  | error e => rw [hg] at hok; cases hok
  | ok rb =>
      rw [hg] at hok
      obtain ⟨hr, hrefs⟩ := getDrupalRoot_ok_refs fs b rb.2 rb.1 (by
        rw [hg])
      injection hok with hok
      injection hok with h1 h2
      subst h1
      subst h2
      simp_all

/-! ## Concrete fixtures for witnesses and counterexamples -/

/-- A filesystem with a project at `/p` whose only directory entry is
`/p/web`; `resolve` is the identity on non-empty paths. -/
def fsWeb : FileSystem :=
  { existsSync := fun s => s = "/p/web"
    lstatIsDirectory := fun s => s = "/p/web"
    resolve := fun s => if s = "" then "/" else s }

/-- A filesystem where `/p/file.txt` exists but is a regular file. -/
def fsFile : FileSystem :=
  { existsSync := fun s => s = "/p/file.txt"
    lstatIsDirectory := fun _ => false
    resolve := fun s => if s = "" then "/" else s }

/-- Heap after `new ConfigBuilder('/p')` on an empty heap. -/
def wHeap : Heap := (ConfigBuilder.construct Heap.empty "/p").1

/-- The freshly constructed builder for project root `/p`. -/
def wBuilder : ConfigBuilder := (ConfigBuilder.construct Heap.empty "/p").2

/-- The builder after `build()` has memoized the detected web root. -/
def wBuilderBuilt : ConfigBuilder :=
  { wBuilder with _drupalRoot := some "/p/web" }

/-- The snapshot `build()` produces from the fresh builder under
`fsWeb`. -/
def wCfg : Config :=
  { projectRoot := "/p"
    drupalRoot := "/p/web"
    styleSources := 0
    styleDestinations := 1
    styleIgnores := 2
    scriptSources := 3
    scriptDestinations := 4
    scriptIgnores := 5
    options := 0 }

/-! ## Claims -/

/-- Appending a fresh array cell to the heap leaves every pattern list
of a snapshot whose references were already allocated unchanged. -/
theorem patternLists_append_cell (h : Heap) (cfg : Config)
    (xs : List String)
    (h1 : cfg.styleSources < h.arrCells.length)
    (h2 : cfg.styleDestinations < h.arrCells.length)
    (h3 : cfg.styleIgnores < h.arrCells.length)
    (h4 : cfg.scriptSources < h.arrCells.length)
    (h5 : cfg.scriptDestinations < h.arrCells.length)
    (h6 : cfg.scriptIgnores < h.arrCells.length) :
    Config.patternLists { h with arrCells := h.arrCells ++ [xs] } cfg =
      Config.patternLists h cfg := by
  simp only [Config.patternLists, Heap.derefArr,
    List.getD_append _ _ _ _ h1, List.getD_append _ _ _ _ h2,
    List.getD_append _ _ _ _ h3, List.getD_append _ _ _ _ h4,
    List.getD_append _ _ _ _ h5, List.getD_append _ _ _ _ h6]

/-- C1: for every builder state, once `build()` has produced a snapshot,
a subsequent call to any of the six pattern-list mutators on the
originating builder leaves all six pattern lists of that snapshot
unchanged (the mutators rebind the builder's field to a fresh array
produced by `concat`; the snapshot keeps the old array). -/
theorem C1_snapshot_lists_unaffected_by_builder_mutation
    (fs : FileSystem) (h : Heap) (b bb : ConfigBuilder) (cfg : Config)
    (ps : List String)
    (hwf : b.wf h) (hok : b.build fs h = .ok (bb, cfg)) :
    Config.patternLists (bb.addStyleSources h ps).1 cfg =
      Config.patternLists h cfg ∧
    Config.patternLists (bb.addStyleDestinations h ps).1 cfg =
      Config.patternLists h cfg ∧
    Config.patternLists (bb.addStyleIgnores h ps).1 cfg =
      Config.patternLists h cfg ∧
    Config.patternLists (bb.addScriptSources h ps).1 cfg =
      Config.patternLists h cfg ∧
    Config.patternLists (bb.addScriptDestinations h ps).1 cfg =
      Config.patternLists h cfg ∧
    Config.patternLists (bb.addScriptIgnores h ps).1 cfg =
      Config.patternLists h cfg := by
  obtain ⟨c1, c2, c3, c4, c5, c6, -, -, -, -, -, -, -, -⟩ :=
    build_ok_refs fs h b bb cfg hok
  obtain ⟨w1, w2, w3, w4, w5, w6, -⟩ := hwf
  have g1 : cfg.styleSources < h.arrCells.length := by rw [c1]; exact w1
  have g2 : cfg.styleDestinations < h.arrCells.length := by
    rw [c2]; exact w2
  have g3 : cfg.styleIgnores < h.arrCells.length := by rw [c3]; exact w3
  have g4 : cfg.scriptSources < h.arrCells.length := by rw [c4]; exact w4
  have g5 : cfg.scriptDestinations < h.arrCells.length := by
    rw [c5]; exact w5
  have g6 : cfg.scriptIgnores < h.arrCells.length := by rw [c6]; exact w6
  exact ⟨patternLists_append_cell h cfg _ g1 g2 g3 g4 g5 g6,
    patternLists_append_cell h cfg _ g1 g2 g3 g4 g5 g6,
    patternLists_append_cell h cfg _ g1 g2 g3 g4 g5 g6,
    patternLists_append_cell h cfg _ g1 g2 g3 g4 g5 g6,
    patternLists_append_cell h cfg _ g1 g2 g3 g4 g5 g6,
    patternLists_append_cell h cfg _ g1 g2 g3 g4 g5 g6⟩

/-- Witness for C1 at the fresh `/p` builder with patterns `["x"]`. -/
theorem C1_witness :
    ConfigBuilder.wf wHeap wBuilder ∧
    wBuilder.build fsWeb wHeap = .ok (wBuilderBuilt, wCfg) ∧
    Config.patternLists (wBuilderBuilt.addStyleSources wHeap ["x"]).1
      wCfg = Config.patternLists wHeap wCfg :=
  ⟨by decide, by rfl,
   (C1_snapshot_lists_unaffected_by_builder_mutation fsWeb wHeap wBuilder
      wBuilderBuilt wCfg ["x"] (by decide) (by rfl)).1⟩

/-- C2 (code bug): `build()` passes `options: this.options` by
reference, so the snapshot's option mapping is aliased with the
builder's.  At the fresh `/p` builder: before mutation the snapshot's
`optionsFor('x', null)` is `null`; after the originating builder runs
`setOptionsFor('x', true)` the same snapshot lookup returns `true`,
contradicting the claimed non-effect. -/
theorem C2_snapshot_options_aliased_with_builder :
    wBuilder.build fsWeb wHeap = .ok (wBuilderBuilt, wCfg) ∧
    Config.optionsFor wHeap wCfg "x" vNull = vNull ∧
    (wBuilderBuilt.setOptionsFor wHeap "x" (vBool true)).2 =
      wBuilderBuilt ∧
    Config.optionsFor
      (wBuilderBuilt.setOptionsFor wHeap "x" (vBool true)).1
      wCfg "x" vNull = vBool true :=
  ⟨by rfl, rfl, by decide, rfl⟩

/-- C3 (code bug): the `DrupalExtension` constructor's guard is
`!existsSync(path) && !lstatSync(path).isDirectory()`; for an existing
non-directory path the conjunction is false and construction succeeds,
contrary to the claim that it must fail.  (For a missing path
`lstatSync` throws `ENOENT` naming the path, so that half of the claim
does hold, though through the thrown `ENOENT` rather than the
unreachable hand-written message.) -/
theorem C3_existing_non_directory_accepted :
    fsFile.existsSync "/p/file.txt" = true ∧
    fsFile.lstatIsDirectory "/p/file.txt" = false ∧
    DrupalExtension.construct fsFile "/p/file.txt" =
      .ok ⟨"/p/file.txt"⟩ ∧
    DrupalExtension.construct fsFile "/p/missing" =
      .error "ENOENT: no such file or directory, lstat /p/missing" :=
  ⟨by decide, by decide, by rfl, by rfl⟩

/-- C4: `detectDrupalRoot` returns the resolved path of the first of
`web`, `docroot` that exists and is a directory, and otherwise fails
with an error naming both attempted candidates. -/
theorem C4_detectDrupalRoot_first_existing_candidate
    (fs : FileSystem) (root : String) :
    detectDrupalRoot fs root =
      (let c1 := fs.resolve (pathJoin [root, "web"])
       let c2 := fs.resolve (pathJoin [root, "docroot"])
       if fs.existsSync c1 && fs.lstatIsDirectory c1 then .ok c1
       else if fs.existsSync c2 && fs.lstatIsDirectory c2 then .ok c2
       else .error "Drupal root not detected at: web, docroot.") := by
  simp only [detectDrupalRoot, drupalRootEntries, detectDrupalRootLoop]
  rfl

/-- A successfully detected root is always the result of
`path.resolve`. -/
theorem detectDrupalRootLoop_ok_resolve (fs : FileSystem) (pr : String) :
    ∀ (es : List String) (r : String),
      detectDrupalRootLoop fs pr es = .ok r → ∃ s, r = fs.resolve s := by
  intro es
  induction es with
  | nil => intro r hok; cases hok
  | cons e rest ih =>
      intro r hok
      simp only [detectDrupalRootLoop] at hok
      split at hok
      · injection hok with hok
        exact ⟨pathJoin [pr, e], hok.symm⟩
      · exact ih r hok

/-- C5: `setDrupalDirectory(name)` fails with a `RootAlreadySet` error
reporting the stored value whenever the web-root slot is already truthy
— in particular after the lazy `drupalRoot` getter has resolved it —
and otherwise stores `path.join(projectRoot, name)` with no filesystem
check (its definition takes no filesystem argument at all); the error
branch performs no assignment, so the stored root is unchanged. -/
theorem C5_setDrupalDirectory_guard (b : ConfigBuilder) (name : String) :
    (jsTruthyStr b._drupalRoot = true →
      b.setDrupalDirectory name =
        .error ("Drupal root already defined: " ++
          b._drupalRoot.getD "")) ∧
    (jsTruthyStr b._drupalRoot = false →
      b.setDrupalDirectory name =
        .ok { b with _drupalRoot := some (pathJoin [b.projectRoot, name]) }) ∧
    (∀ (fs : FileSystem) (r : String) (b' : ConfigBuilder),
      fs.resolveNonempty → b.getDrupalRoot fs = .ok (r, b') →
      b'.setDrupalDirectory name =
        .error ("Drupal root already defined: " ++ r)) := by
  refine ⟨?_, ?_, ?_⟩
  · intro ht
    simp [ConfigBuilder.setDrupalDirectory, ht]
  · intro hf
    simp [ConfigBuilder.setDrupalDirectory, hf]
  · intro fs r b' hres hok
    unfold ConfigBuilder.getDrupalRoot at hok
    split at hok
    · rename_i ht
      injection hok with hok
      injection hok with h1 h2
      subst h2
      subst h1
      simp [ConfigBuilder.setDrupalDirectory, ht]
    · rename_i hf
      cases hd : detectDrupalRoot fs b.projectRoot with
      | error e => rw [hd] at hok; cases hok
      | ok root =>
          rw [hd] at hok
          injection hok with hok
          injection hok with h1 h2
          subst h2
          subst h1
          obtain ⟨s, hs⟩ := detectDrupalRootLoop_ok_resolve fs
            b.projectRoot drupalRootEntries root hd
          have hr : root ≠ "" := by rw [hs]; exact hres s
          simp [ConfigBuilder.setDrupalDirectory, jsTruthyStr, hr]

/-- Witness for C5: on the fresh `/p` builder the override succeeds and
stores `/p/www`; after lazy resolution (and on the post-`build()`
builder) it fails reporting `/p/web`. -/
theorem C5_witness :
    (wBuilder.setDrupalDirectory "www" =
      .ok { wBuilder with _drupalRoot := some "/p/www" }) ∧
    (wBuilder.getDrupalRoot fsWeb = .ok ("/p/web", wBuilderBuilt)) ∧
    (wBuilderBuilt.setDrupalDirectory "www" =
      .error "Drupal root already defined: /p/web") := by
  refine ⟨?_, by rfl, ?_⟩
  · have := (C5_setDrupalDirectory_guard wBuilder "www").2.1 (by decide)
    simpa using this
  · exact (C5_setDrupalDirectory_guard wBuilder "www").2.2 fsWeb
      "/p/web" wBuilderBuilt
      (by
        intro s
        simp only [fsWeb]
        split
        · simp
        · assumption)
      (by rfl)

/-- C6: `setOptionsFor(k, v)` followed by `getOptionsFor(k, fallback)`
returns exactly `v` for any fallback and any value — including falsy
values such as `false`, `0` or `{}` — and the fallback is returned only
when the key is absent (the `in` presence test governs, not
truthiness); the same holds for `optionsFor` on a snapshot built after
the store. -/
theorem C6_options_presence_not_truthiness (h : Heap) (b : ConfigBuilder)
    (k : String) (v fb : JSValue)
    (hwf : b.options < h.objCells.length) :
    (ConfigBuilder.getOptionsFor (b.setOptionsFor h k v).1
      (b.setOptionsFor h k v).2 k fb = v) ∧
    (jsIn k (h.derefObj b.options) = false →
      b.getOptionsFor h k fb = fb) ∧
    (∀ (fs : FileSystem) (b2 : ConfigBuilder) (cfg : Config),
      ConfigBuilder.build fs (b.setOptionsFor h k v).1
        (b.setOptionsFor h k v).2 = .ok (b2, cfg) →
      Config.optionsFor (b.setOptionsFor h k v).1 cfg k fb = v) := by
  have hset : (b.setOptionsFor h k v).1.derefObj b.options =
      jsSetProp k v (h.derefObj b.options) := by
    simp only [ConfigBuilder.setOptionsFor]
    exact Heap.derefObj_writeObj_self h b.options _ hwf
  refine ⟨?_, ?_, ?_⟩
  · simp only [ConfigBuilder.getOptionsFor, ConfigBuilder.setOptionsFor]
    simp only [ConfigBuilder.setOptionsFor] at hset
    rw [hset, jsIn_jsSetProp_self, if_pos rfl, jsGetProp_jsSetProp_self]
  · intro habs
    simp only [ConfigBuilder.getOptionsFor, habs]
    simp
  · intro fs b2 cfg hok
    obtain ⟨-, -, -, -, -, -, hcopt, -⟩ :=
      build_ok_refs fs (b.setOptionsFor h k v).1 (b.setOptionsFor h k v).2
        b2 cfg hok
    have hbop : (b.setOptionsFor h k v).2.options = b.options := rfl
    simp only [Config.optionsFor, hcopt, hbop, hset,
      jsIn_jsSetProp_self, jsGetProp_jsSetProp_self]
    simp

/-- Witness for C6 at the fresh `/p` builder, storing the falsy value
`false` under key `k` and using a non-null fallback. -/
theorem C6_witness :
    wBuilder.options < wHeap.objCells.length ∧
    ConfigBuilder.getOptionsFor
      (wBuilder.setOptionsFor wHeap "k" (vBool false)).1
      (wBuilder.setOptionsFor wHeap "k" (vBool false)).2 "k"
      (vStr "fallback") = vBool false ∧
    (jsIn "zz" (wHeap.derefObj wBuilder.options) = false →
      wBuilder.getOptionsFor wHeap "zz" (vStr "fallback") =
        vStr "fallback") :=
  ⟨by decide,
   (C6_options_presence_not_truthiness wHeap wBuilder "k" (vBool false)
      (vStr "fallback") (by decide)).1,
   (C6_options_presence_not_truthiness wHeap wBuilder "zz" (vBool false)
      (vStr "fallback") (by decide)).2.1⟩

/-- The builder state after a sequence of `addStyleSources` calls. -/
def addStyleSourcesSeq (s : Heap × ConfigBuilder)
    (pss : List (List String)) : Heap × ConfigBuilder :=
  pss.foldl (fun s ps => ConfigBuilder.addStyleSources s.1 s.2 ps) s

theorem addStyleSourcesSeq_deref (pss : List (List String)) :
    ∀ s : Heap × ConfigBuilder,
      (addStyleSourcesSeq s pss).1.derefArr
        (addStyleSourcesSeq s pss).2.styleSources =
      s.1.derefArr s.2.styleSources ++ pss.flatten := by
  induction pss with
  | nil => intro s; simp [addStyleSourcesSeq]
  | cons ps rest ih =>
      intro s
      have hstep : addStyleSourcesSeq s (ps :: rest) =
          addStyleSourcesSeq (s.2.addStyleSources s.1 ps) rest := rfl
      rw [hstep, ih, addStyleSources_effect]
      simp [List.append_assoc]

/-- C7: on a fresh builder, any sequence of `addStyleSources` calls with
pattern lists `P1, …, Pn` leaves `styleSources` equal to the
concatenation `P1 ++ … ++ Pn` in call order — no reordering, no
deduplication. -/
theorem C7_addStyleSources_concatenation (pss : List (List String))
    (h : Heap) (root : String) :
    (addStyleSourcesSeq (ConfigBuilder.construct h root) pss).1.derefArr
      (addStyleSourcesSeq (ConfigBuilder.construct h root) pss).2.styleSources
      = pss.flatten := by
  rw [addStyleSourcesSeq_deref, construct_derefArr_styleSources]
  simp

/-- The value `applyDefaults()` stores under `uglify` (its
`mangle.reserved` field reads the `globals` entry just written). -/
def uglifyDefault : JSValue :=
  vObj [("mangle", vObj [("reserved", defaultGlobals)]),
        ("output", vObj [("comments", vStr "some")])]

theorem getD_list_set_self {α : Type _} (l : List α) (i : Nat) (a d : α)
    (hi : i < l.length) : (l.set i a).getD i d = a := by
  rw [List.getD_eq_getElem _ _ (by simpa using hi)]
  simp [hi]

theorem applyDefaults_snd (h : Heap) (b : ConfigBuilder) :
    (b.applyDefaults h).2 =
      { b with styleIgnores := h.arrCells.length, scriptIgnores := h.arrCells.length + 1 } := by
  simp [ConfigBuilder.applyDefaults, ConfigBuilder.addStyleIgnores,
        ConfigBuilder.addScriptIgnores, ConfigBuilder.setOptionsFor,
        Heap.allocArr]

theorem applyDefaults_arrCells (h : Heap) (b : ConfigBuilder)
    (hscr : b.scriptIgnores < h.arrCells.length) :
    (b.applyDefaults h).1.arrCells =
      h.arrCells ++ [h.derefArr b.styleIgnores ++ defaultStyleIgnores,
                     h.derefArr b.scriptIgnores ++ defaultScriptIgnores] := by
  simp only [ConfigBuilder.applyDefaults, ConfigBuilder.addStyleIgnores,
    ConfigBuilder.addScriptIgnores, ConfigBuilder.setOptionsFor,
    Heap.allocArr, Heap.writeObj, Heap.derefArr]
  rw [List.getD_append _ _ _ _ hscr]
  simp

theorem applyDefaults_objCells_length (h : Heap) (b : ConfigBuilder) :
    (b.applyDefaults h).1.objCells.length = h.objCells.length := by
  simp [ConfigBuilder.applyDefaults, ConfigBuilder.addStyleIgnores,
        ConfigBuilder.addScriptIgnores, ConfigBuilder.setOptionsFor,
        Heap.allocArr, Heap.writeObj]

theorem applyDefaults_obj (h : Heap) (b : ConfigBuilder)
    (hopt : b.options < h.objCells.length) :
    (b.applyDefaults h).1.derefObj b.options =
      jsSetProp "uglify" uglifyDefault
        (jsSetProp "globals" defaultGlobals (h.derefObj b.options)) := by
  simp only [ConfigBuilder.applyDefaults, ConfigBuilder.addStyleIgnores,
    ConfigBuilder.addScriptIgnores, ConfigBuilder.setOptionsFor,
    Heap.allocArr, Heap.writeObj, Heap.derefObj]
  have e1 : (h.objCells.set b.options
      (jsSetProp "globals" defaultGlobals
        (h.objCells.getD b.options []))).getD b.options [] =
      jsSetProp "globals" defaultGlobals (h.objCells.getD b.options []) :=
    getD_list_set_self _ _ _ _ hopt
  rw [e1, getD_list_set_self _ _ _ _ (by simpa using hopt),
    jsGetProp_jsSetProp_self]
  rfl

/-- After one `applyDefaults()`, the `globals` and `uglify` option
entries hold the default values, whatever they held before. -/
theorem applyDefaults_getOptionsFor (h : Heap) (b : ConfigBuilder)
    (hopt : b.options < h.objCells.length) (fb : JSValue) :
    ConfigBuilder.getOptionsFor (b.applyDefaults h).1
      (b.applyDefaults h).2 "globals" fb = defaultGlobals ∧
    ConfigBuilder.getOptionsFor (b.applyDefaults h).1
      (b.applyDefaults h).2 "uglify" fb = uglifyDefault := by
  have hbop : (b.applyDefaults h).2.options = b.options := by
    rw [applyDefaults_snd]
  have hobj := applyDefaults_obj h b hopt
  constructor
  · simp only [ConfigBuilder.getOptionsFor, hbop, hobj]
    rw [jsIn_jsSetProp_of_jsIn _ _ _ _ (jsIn_jsSetProp_self ..),
      if_pos rfl,
      jsGetProp_jsSetProp_ne _ _ _ _ (by decide),
      jsGetProp_jsSetProp_self]
  · simp only [ConfigBuilder.getOptionsFor, hbop, hobj]
    rw [jsIn_jsSetProp_self, if_pos rfl, jsGetProp_jsSetProp_self]

/-- C8: calling `applyDefaults()` twice appends the three default style
ignores and the three default script ignores once per call — each
default pattern occurs exactly two more times than before (so exactly
twice on a fresh builder) — while the `globals` and `uglify` option
entries hold the same value after the second call as after the first
(the second call overwrites them with equal values). -/
theorem C8_applyDefaults_twice (h : Heap) (b : ConfigBuilder)
    (hwf : b.wf h) :
    (∀ p ∈ defaultStyleIgnores,
      (((b.applyDefaults h).2.applyDefaults (b.applyDefaults h).1).1.derefArr
        ((b.applyDefaults h).2.applyDefaults (b.applyDefaults h).1).2.styleIgnores).count p =
      (h.derefArr b.styleIgnores).count p + 2) ∧
    (∀ p ∈ defaultScriptIgnores,
      (((b.applyDefaults h).2.applyDefaults (b.applyDefaults h).1).1.derefArr
        ((b.applyDefaults h).2.applyDefaults (b.applyDefaults h).1).2.scriptIgnores).count p =
      (h.derefArr b.scriptIgnores).count p + 2) ∧
    (∀ fb : JSValue,
      ConfigBuilder.getOptionsFor
        ((b.applyDefaults h).2.applyDefaults (b.applyDefaults h).1).1
        ((b.applyDefaults h).2.applyDefaults (b.applyDefaults h).1).2
        "globals" fb =
      ConfigBuilder.getOptionsFor (b.applyDefaults h).1
        (b.applyDefaults h).2 "globals" fb) ∧
    (∀ fb : JSValue,
      ConfigBuilder.getOptionsFor
        ((b.applyDefaults h).2.applyDefaults (b.applyDefaults h).1).1
        ((b.applyDefaults h).2.applyDefaults (b.applyDefaults h).1).2
        "uglify" fb =
      ConfigBuilder.getOptionsFor (b.applyDefaults h).1
        (b.applyDefaults h).2 "uglify" fb) := by
  obtain ⟨-, -, -, -, -, wscr, wopt⟩ := hwf
  have hb1 := applyDefaults_snd h b
  have harr1 := applyDefaults_arrCells h b wscr
  have hlen1 : (b.applyDefaults h).1.arrCells.length =
      h.arrCells.length + 2 := by
    rw [harr1]; simp
  have wscr1 : (b.applyDefaults h).2.scriptIgnores <
      (b.applyDefaults h).1.arrCells.length := by
    rw [hb1, hlen1]; simp
  have wopt1 : (b.applyDefaults h).2.options <
      (b.applyDefaults h).1.objCells.length := by
    rw [hb1, applyDefaults_objCells_length]; exact wopt
  have harr2 := applyDefaults_arrCells (b.applyDefaults h).1
    (b.applyDefaults h).2 wscr1
  have hb2 := applyDefaults_snd (b.applyDefaults h).1 (b.applyDefaults h).2
  -- the two ignore-list cells after the first call
  have hstyle1 : (b.applyDefaults h).1.derefArr
      (b.applyDefaults h).2.styleIgnores =
      h.derefArr b.styleIgnores ++ defaultStyleIgnores := by
    simp only [hb1, Heap.derefArr, harr1]
    rw [List.getD_append_right _ _ _ _ (le_refl _)]
    simp
  have hscript1 : (b.applyDefaults h).1.derefArr
      (b.applyDefaults h).2.scriptIgnores =
      h.derefArr b.scriptIgnores ++ defaultScriptIgnores := by
    simp only [hb1, Heap.derefArr, harr1]
    rw [List.getD_append_add]
    simp [Heap.derefArr]
  have hstyle2 : ((b.applyDefaults h).2.applyDefaults
      (b.applyDefaults h).1).1.derefArr
      ((b.applyDefaults h).2.applyDefaults (b.applyDefaults h).1).2.styleIgnores =
      (h.derefArr b.styleIgnores ++ defaultStyleIgnores) ++
        defaultStyleIgnores := by
    have hs1 := hstyle1
    simp only [Heap.derefArr, List.getD_eq_getElem?_getD] at hs1
    simp only [hb2, Heap.derefArr, harr2]
    rw [List.getD_append_right _ _ _ _ (le_refl _)]
    simp [List.getD_eq_getElem?_getD, hs1, List.append_assoc]
  have hscript2 : ((b.applyDefaults h).2.applyDefaults
      (b.applyDefaults h).1).1.derefArr
      ((b.applyDefaults h).2.applyDefaults (b.applyDefaults h).1).2.scriptIgnores =
      (h.derefArr b.scriptIgnores ++ defaultScriptIgnores) ++
        defaultScriptIgnores := by
    have hs1 := hscript1
    simp only [Heap.derefArr, List.getD_eq_getElem?_getD] at hs1
    simp only [hb2, Heap.derefArr, harr2]
    rw [List.getD_append_add]
    simp [List.getD_eq_getElem?_getD, hs1, List.append_assoc]
  refine ⟨?_, ?_, ?_, ?_⟩
  · intro p hp
    rw [hstyle2]
    simp only [List.count_append]
    have : defaultStyleIgnores.count p = 1 := by
      simp only [defaultStyleIgnores, List.mem_cons,
        List.not_mem_nil, or_false] at hp
      rcases hp with rfl | rfl | rfl <;> decide
    omega
  · intro p hp
    rw [hscript2]
    simp only [List.count_append]
    have : defaultScriptIgnores.count p = 1 := by
      simp only [defaultScriptIgnores, List.mem_cons,
        List.not_mem_nil, or_false] at hp
      rcases hp with rfl | rfl | rfl <;> decide
    omega
  · intro fb
    rw [(applyDefaults_getOptionsFor _ _ wopt1 fb).1,
        (applyDefaults_getOptionsFor _ _ wopt fb).1]
  · intro fb
    rw [(applyDefaults_getOptionsFor _ _ wopt1 fb).2,
        (applyDefaults_getOptionsFor _ _ wopt fb).2]

/-- Witness for C8 on the fresh `/p` builder: each default pattern ends
up exactly twice in each ignore list, and the two option entries agree
between the first and the second call. -/
theorem C8_witness :
    ConfigBuilder.wf wHeap wBuilder ∧
    ((("**/node_modules/**" ∈ defaultStyleIgnores) ∧
      ((((wBuilder.applyDefaults wHeap).2.applyDefaults
          (wBuilder.applyDefaults wHeap).1).1.derefArr
        ((wBuilder.applyDefaults wHeap).2.applyDefaults
          (wBuilder.applyDefaults wHeap).1).2.styleIgnores).count
        "**/node_modules/**" =
       (wHeap.derefArr wBuilder.styleIgnores).count "**/node_modules/**"
         + 2)) ∧
     (ConfigBuilder.getOptionsFor
        ((wBuilder.applyDefaults wHeap).2.applyDefaults
          (wBuilder.applyDefaults wHeap).1).1
        ((wBuilder.applyDefaults wHeap).2.applyDefaults
          (wBuilder.applyDefaults wHeap).1).2 "globals" vNull =
      ConfigBuilder.getOptionsFor (wBuilder.applyDefaults wHeap).1
        (wBuilder.applyDefaults wHeap).2 "globals" vNull)) :=
  ⟨by decide,
   ⟨⟨by decide,
     (C8_applyDefaults_twice wHeap wBuilder (by decide)).1
       "**/node_modules/**" (by decide)⟩,
    (C8_applyDefaults_twice wHeap wBuilder (by decide)).2.2.1 vNull⟩⟩

theorem pathJoin_three (p a b : String) (hp : p ≠ "") (ha : a ≠ "")
    (hb : b ≠ "") : pathJoin [p, a, b] = p ++ "/" ++ a ++ "/" ++ b := by
  simp only [pathJoin, List.filter, hp, ha, hb, decide_eq_true_eq,
    joinParts]
  simp [joinParts, hp, ha, hb, String.append_assoc]

theorem pathJoin_four (p a b c : String) (hp : p ≠ "") (ha : a ≠ "")
    (hb : b ≠ "") (hc : c ≠ "") :
    pathJoin [p, a, b, c] = p ++ "/" ++ a ++ "/" ++ b ++ "/" ++ c := by
  simp only [pathJoin, List.filter, hp, ha, hb, hc, decide_eq_true_eq,
    joinParts]
  simp [joinParts, hp, ha, hb, hc, String.append_assoc]

/-- C9: for every non-empty extension path `p`, the style destination
derivation yields exactly the four patterns `p/dist/*.min.css`,
`p/dist/*.css.map`, `p/components/**/*.min.css`,
`p/components/**/*.css.map`, and the script derivation the symmetric
four with the `js` extension; both are pure string computations — their
definitions take no filesystem argument at all. -/
theorem C9_destination_pattern_shape (p : String) (hp : p ≠ "") :
    DrupalExtension.getStyleDestinationPatterns ⟨p⟩ =
      [p ++ "/dist/*.min.css", p ++ "/dist/*.css.map",
       p ++ "/components/**/*.min.css",
       p ++ "/components/**/*.css.map"] ∧
    DrupalExtension.getScriptDestinations ⟨p⟩ =
      [p ++ "/dist/*.min.js", p ++ "/dist/*.js.map",
       p ++ "/components/**/*.min.js",
       p ++ "/components/**/*.js.map"] := by
  constructor
  · simp only [DrupalExtension.getStyleDestinationPatterns,
      pathJoin_three p "dist" "*.min.css" hp (by decide) (by decide),
      pathJoin_three p "dist" "*.css.map" hp (by decide) (by decide),
      pathJoin_four p "components" "**" "*.min.css" hp (by decide)
        (by decide) (by decide),
      pathJoin_four p "components" "**" "*.css.map" hp (by decide)
        (by decide) (by decide), String.append_assoc]
    rfl
  · simp only [DrupalExtension.getScriptDestinations,
      pathJoin_three p "dist" "*.min.js" hp (by decide) (by decide),
      pathJoin_three p "dist" "*.js.map" hp (by decide) (by decide),
      pathJoin_four p "components" "**" "*.min.js" hp (by decide)
        (by decide) (by decide),
      pathJoin_four p "components" "**" "*.js.map" hp (by decide)
        (by decide) (by decide), String.append_assoc]
    rfl

/-- Witness for C9 at the concrete extension path `/e`. -/
theorem C9_witness :
    ("/e" : String) ≠ "" ∧
    DrupalExtension.getStyleDestinationPatterns ⟨"/e"⟩ =
      ["/e/dist/*.min.css", "/e/dist/*.css.map",
       "/e/components/**/*.min.css", "/e/components/**/*.css.map"] :=
  ⟨by decide, (C9_destination_pattern_shape "/e" (by decide)).1⟩

/-- C10: a key never stored with `setOptionsFor` but inherited from
`Object.prototype` — here `toString` and `constructor` — is found by
the `in` presence test, so `getOptionsFor` on the builder and
`optionsFor` on the snapshot return the inherited prototype value, not
the supplied fallback. -/
theorem C10_prototype_keys_shadow_fallback :
    wBuilder.getOptionsFor wHeap "toString" (vStr "fallback") =
      vFun "toString" ∧
    wBuilder.getOptionsFor wHeap "constructor" (vStr "fallback") =
      vFun "Object" ∧
    Config.optionsFor wHeap wCfg "toString" (vStr "fallback") =
      vFun "toString" ∧
    vFun "toString" ≠ vStr "fallback" ∧
    vFun "Object" ≠ vStr "fallback" := by
  refine ⟨rfl, rfl, rfl, ?_, ?_⟩ <;> simp

end DrupalGulp
